import Mathlib

/-!
Verification development for the RLDojo repository.

Shallow embedding of:
* `Dojo/input_management/controller_hotkey_manager.py` (class
  `ControllerHotkeyManager`): button/hat naming, the event handlers,
  the rebind hand-off (`wait_for_rebind` / `cancel_rebind`), input polling.
* `Dojo/game_modes/playlist_edit_mode.py` (class `PlaylistEditMode`).
* `RLBotPack/MarvinBots/rashBot/Handling.py` (`controls`, `dodge_hit`,
  `to_jump`).

Python `dict`s keyed by strings or ints are embedded as functions into
`Option` or as association lists; Python exceptions (`KeyError` on a missing
dict key, `AttributeError` on `None`) become `Except String`.  Real-number
arithmetic of the bot control law is idealised over `ℚ`; Python truthiness of
a number is `≠ 0`, and Python `bool` values are their numeric values `0`/`1`
(in Python, `bool` is a subtype of `int` with `True == 1`, `False == 0`).
-/

namespace RLDojo

/-! ## Controller hotkey manager -/

/-- The `BUTTON_NAMES` class dictionary of `ControllerHotkeyManager`
(controller_hotkey_manager.py lines 35-48), embedded as an association list
from button index to name. -/
def BUTTON_NAMES : List (Nat × String) :=
  [(0, "A"), (1, "B"), (2, "X"), (3, "Y"),
   (4, "LB"), (5, "RB"), (6, "Back"), (7, "Start"),
   (8, "LS"), (9, "RS"), (10, "Guide"), (11, "Misc1")]

/-- The `HAT_NAMES` class dictionary (lines 51-61): d-pad hat position to an
optional name.  The centered position `(0, 0)` is present with value `None`. -/
def HAT_NAMES : List ((Int × Int) × Option String) :=
  [((0, 1), some ("D-Up")),
   ((0, -1), some ("D-Down")),
   ((-1, 0), some ("D-Left")),
   ((1, 0), some ("D-Right")),
   ((-1, 1), some ("D-Up-Left")),
   ((1, 1), some ("D-Up-Right")),
   ((-1, -1), some ("D-Down-Left")),
   ((1, -1), some ("D-Down-Right")),
   ((0, 0), none)]

/-- `get_button_name` (lines 83-89): the standard name if the index is in
`BUTTON_NAMES`, otherwise the f-string fallback.  The `joystick` argument is
a joystick handle (opaque to this function, as in the source, which never
uses it). -/
def get_button_name (button_index : Nat) (joystick : Nat) : String :=
  match BUTTON_NAMES.lookup button_index with
  | some n => n
  | none => "Button " ++ toString button_index

/-- `get_hat_name` (lines 91-93): `HAT_NAMES.get(hat_position, None)` — the
stored value when the key is present (which is itself `None` for `(0, 0)`),
`None` for an absent key. -/
def get_hat_name (hat_position : Int × Int) : Option String :=
  (HAT_NAMES.lookup hat_position).join

/-- The mutable state of a `ControllerHotkeyManager` instance (lines 63-81)
that the claims concern.  `hotkeys` and `joysticks` are Python dicts,
embedded as functions into `Option`; a callback is identified by a `Nat`;
`rebind_event` is the `threading.Event` flag. -/
structure HotkeyState where
  hotkeys : String → Option Nat
  joysticks : Nat → Option Nat
  rebind_mode : Bool
  rebind_result : Option String
  rebind_event : Bool
  keys_pressed : List String
  dpad_pressed : List String

/-- `register_hotkey` (lines 108-109): dict assignment
`self.hotkeys[hotkey] = callback`. -/
def register_hotkey (s : HotkeyState) (hotkey : String) (callback : Nat) :
    HotkeyState :=
  { s with hotkeys := fun n => if n = hotkey then some callback else s.hotkeys n }

/-- `_handle_button_down` (lines 170-185).  The joystick dict lookup
`self.joysticks[event.instance_id]` raises `KeyError` when the id is absent.
In rebind mode the button name is stored, the event is set and the handler
returns without dispatching.  Otherwise a registered callback for the name is
invoked; the invoked callback (if any) is returned alongside the new state. -/
def handle_button_down (s : HotkeyState) (instance_id : Nat) (button : Nat) :
    Except String (HotkeyState × Option Nat) :=
  match s.joysticks instance_id with
  | none => .error ("KeyError")
  | some joystick =>
    let button_name := get_button_name button joystick
    if s.rebind_mode then
      .ok ({ s with rebind_result := some button_name, rebind_event := true }, none)
    else
      match s.hotkeys button_name with
      | some cb => .ok (s, some cb)
      | none => .ok (s, none)

/-- `_handle_hat_motion` (lines 193-204).  When the hat name is truthy and
rebind mode is on, the name is captured and the event set; in every case no
hotkey callback is invoked (the handler has no dispatch branch). -/
def handle_hat_motion (s : HotkeyState) (value : Int × Int) :
    HotkeyState × Option Nat :=
  match get_hat_name value with
  | some hat_name =>
    if s.rebind_mode then
      ({ s with rebind_result := some hat_name, rebind_event := true }, none)
    else (s, none)
  | none => (s, none)

/-- First critical section of `wait_for_rebind` (lines 122-125): enter rebind
mode, clear the previous result and the event. -/
def rebind_begin (s : HotkeyState) : HotkeyState :=
  { s with rebind_mode := true, rebind_result := none, rebind_event := false }

/-- Second critical section and return of `wait_for_rebind` (lines 130-135):
leave rebind mode, read and clear the result, and return it only when
`button_detected` (the value of `rebind_event.wait(timeout)`) is true. -/
def rebind_finish (s : HotkeyState) (button_detected : Bool) :
    HotkeyState × Option String :=
  ({ s with rebind_mode := false, rebind_result := none },
   if button_detected then s.rebind_result else none)

/-- `wait_for_rebind` (lines 111-135).  The blocking
`rebind_event.wait(timeout)` is modelled by a `during` step: the activity of
the background poll thread between entering and leaving the wait.  The wait
returns `true` exactly when the event flag was set during it. -/
def wait_for_rebind (s : HotkeyState) (during : HotkeyState → HotkeyState) :
    HotkeyState × Option String :=
  let s1 := rebind_begin s
  let s2 := during s1
  rebind_finish s2 s2.rebind_event

/-- `cancel_rebind` (lines 137-142): clear the rebind state and set the event
to release a blocked waiter. -/
def cancel_rebind (s : HotkeyState) : HotkeyState :=
  { s with rebind_mode := false, rebind_result := none, rebind_event := true }

/-- The poll thread delivering one `JOYBUTTONDOWN` event to
`_handle_button_down` (as `_process_events` does, lines 159-160); a raised
`KeyError` would leave the state unchanged (the thread dies). -/
def pollButtonDown (instance_id : Nat) (button : Nat) (s : HotkeyState) :
    HotkeyState :=
  match handle_button_down s instance_id button with
  | .ok (s', _) => s'
  | .error _ => s

/-- The poll thread delivering one `JOYHATMOTION` event to
`_handle_hat_motion` (lines 163-164). -/
def pollHatMotion (value : Int × Int) (s : HotkeyState) : HotkeyState :=
  (handle_hat_motion s value).1

/-- One joystick's polled readings, as read by `_update_input_state`
(lines 217-236): `joystick.get_button(i)` for `i < get_numbuttons()` and
`joystick.get_hat(i)` for `i < get_numhats()`, plus the handle passed to
`get_button_name`. -/
structure JoyReading where
  id : Nat
  buttons : List Nat
  hats : List (Int × Int)

/-- The `keys_pressed` contribution of one joystick in `_update_input_state`
(lines 223-228). -/
def keys_of (j : JoyReading) : List String :=
  (List.range j.buttons.length).filterMap fun i =>
    if j.buttons.getD i 0 = 1 then some (get_button_name i j.id) else none

/-- The `dpad_pressed` contribution of one joystick (lines 230-236): hat
positions whose name is truthy. -/
def dpad_of (j : JoyReading) : List String :=
  j.hats.filterMap get_hat_name

/-- `_update_input_state` (lines 217-236): clear and recompute `keys_pressed`
and `dpad_pressed` from the connected joysticks' readings. -/
def update_input_state (s : HotkeyState) (readings : List JoyReading) :
    HotkeyState :=
  { s with
    keys_pressed := (readings.map keys_of).flatten
    dpad_pressed := (readings.map dpad_of).flatten }

/-! ## Playlist edit mode -/

/-- A 3-vector over `ℚ`, standing for RLBot's `Vector3` and for the numpy
triples of the bot script. -/
structure Vec3 where
  x : ℚ
  y : ℚ
  z : ℚ
deriving DecidableEq, Repr

def v3add (a b : Vec3) : Vec3 := ⟨a.x + b.x, a.y + b.y, a.z + b.z⟩

def v3sub (a b : Vec3) : Vec3 := ⟨a.x - b.x, a.y - b.y, a.z - b.z⟩

def v3smul (a : Vec3) (c : ℚ) : Vec3 := ⟨a.x * c, a.y * c, a.z * c⟩

def v3div (a : Vec3) (c : ℚ) : Vec3 := ⟨a.x / c, a.y / c, a.z / c⟩

/-- RLBot's `Physics` record (location, rotation, velocity, angular
velocity), external to this repository and carried around unchanged. -/
structure Physics where
  location : Vec3
  rotation : Vec3
  velocity : Vec3
  angular_velocity : Vec3
deriving DecidableEq, Repr

/-- The fields of RLBot's `PlayerInfo` that `get_current_game_state` reads. -/
structure PlayerInfo where
  physics : Physics
  boost : ℚ
  jumped : Bool
  double_jumped : Bool
deriving DecidableEq, Repr

/-- RLBot's `BallInfo`, restricted to the field this code reads. -/
structure BallInfo where
  physics : Physics
deriving DecidableEq, Repr

/-- RLBot's `GameTickPacket`, restricted to the fields this code reads. -/
structure GameTickPacket where
  game_cars : List PlayerInfo
  game_ball : BallInfo
deriving DecidableEq, Repr

/-- RLBot's `CarState` as constructed by `get_current_game_state`. -/
structure CarState where
  physics : Physics
  boost_amount : ℚ
  jumped : Bool
  double_jumped : Bool
deriving DecidableEq, Repr

/-- RLBot's `BallState` as constructed by `get_current_game_state`. -/
structure BallState where
  physics : Physics
deriving DecidableEq, Repr

/-- RLBot's `GameState`; `cars` is the `car_states` dict keyed by player
index, embedded as an association list. -/
structure GameState where
  ball : BallState
  cars : List (Nat × CarState)
deriving DecidableEq, Repr

/-- `PlaylistEditMode` (playlist_edit_mode.py lines 25-32).  `game_state`
(a `DojoGameState`) and `game_interface` are external objects this mode only
stores; they are embedded as opaque handles. -/
structure PlaylistEditMode where
  game_state : Nat
  game_interface : Nat
  current_packet : Option GameTickPacket
deriving DecidableEq, Repr

/-- `PlaylistEditMode.update` (lines 34-36): store the packet. -/
def PlaylistEditMode.update (m : PlaylistEditMode) (packet : GameTickPacket) :
    PlaylistEditMode :=
  { m with current_packet := some packet }

/-- `PlaylistEditMode.initialize` (lines 38-40): `pass` — no state change.
Named `init` here because `initialize` is reserved in this development. -/
def PlaylistEditMode.init (m : PlaylistEditMode) : PlaylistEditMode := m

/-- `PlaylistEditMode.cleanup` (lines 42-44): `pass` — no state change. -/
def PlaylistEditMode.cleanup (m : PlaylistEditMode) : PlaylistEditMode := m

/-- The `for i, player_info in enumerate(packet.game_cars)` loop of
`get_current_game_state` (lines 50-52), building the `car_states` dict with
consecutive integer keys starting at `i`. -/
def build_car_states : Nat → List PlayerInfo → List (Nat × CarState)
  | _, [] => []
  | i, c :: rest =>
    (i, ⟨c.physics, c.boost, c.jumped, c.double_jumped⟩) ::
      build_car_states (i + 1) rest

/-- `get_current_game_state` (lines 46-55).  When `current_packet` is `None`,
`packet.game_cars` raises `AttributeError` (nothing in the script catches
it); otherwise the packet's cars and ball are copied into a `GameState`. -/
def get_current_game_state (m : PlaylistEditMode) : Except String GameState :=
  match m.current_packet with
  | none => .error ("AttributeError")
  | some packet =>
    .ok ⟨⟨packet.game_ball.physics⟩, build_car_states 0 packet.game_cars⟩

/-! ## Bot control law (`Handling.py`)

`Handling.py` opens with `from Util import *`; `Util.py` is not part of the
sources under verification, so its pure numeric helpers (`curve1`, `regress`,
`Range180`, `sign`, `ang_dif`, `d2`, `local`, the constant `U`) are abstract
parameters gathered in `Util`.  `dodge_ang` (which uses `math.atan2`) and the
value computed by the `exec` of an unknown incoming `s.djL` string are also
abstracted.  All numbers are idealised as `ℚ`. -/

/-- Python truthiness of a number: non-zero. -/
def pytrue (q : ℚ) : Prop := q ≠ 0

instance (q : ℚ) : Decidable (pytrue q) := by unfold pytrue; infer_instance

/-- A Python boolean as its numeric value (`True == 1`, `False == 0`). -/
def bq (p : Prop) [Decidable p] : ℚ := if p then 1 else 0

/-- Python `and` on numbers: the first operand if falsy, else the second. -/
def pyAnd (a b : ℚ) : ℚ := if a = 0 then a else b

/-- Python `or` on numbers: the first operand if truthy, else the second. -/
def pyOr (a b : ℚ) : ℚ := if a = 0 then b else a

/-- Python `not` on a number, as a numeric boolean. -/
def pyNot (a : ℚ) : ℚ := if a = 0 then 1 else 0

/-- The value of the string field `s.djL`, which `Handling.py` only ever sets
to the source text `s.tL` (line 69) or `s.bL + s.bV/60` (line 132) and
evaluates with `exec` (line 106); any other incoming string is `other`. -/
inductive DjL where
  | tL : DjL
  | bLbV : DjL
  | other : DjL
deriving DecidableEq, Repr

/-- The helpers `Handling.py` imports from the missing `Util.py`, plus the
two abstractions described above.  `d2v` is `d2` applied to a 3-vector,
`d2xy` is `d2` applied to a 2-element list, `localv` is `local`. -/
structure Util where
  curve1 : ℚ → ℚ
  regress : ℚ → ℚ
  Range180 : ℚ → ℚ → ℚ
  sign : ℚ → ℚ
  ang_dif : ℚ → ℚ → ℚ → ℚ
  d2v : Vec3 → ℚ
  d2xy : ℚ → ℚ → ℚ
  localv : Vec3 → Vec3 → Vec3 → Vec3
  U : ℚ
  dodge_ang : Vec3 → Vec3 → Vec3 → ℚ
  djaOther : ℚ

/-- The bot state object `s` threaded through `controls`, with every field
the script reads or writes.  Flags coming from outside (`poG`, `kickoff`,
`shoot`, `flip`, `wavedash`, `brakes`, `tojump`, `offense`, `ljump`,
`lljump`, `jumper`, `dodge`) keep their Python numeric values and are tested
by truthiness. -/
structure BotState where
  a : ℚ
  av : ℚ
  i : ℚ
  iv : ℚ
  r : ℚ
  rv : ℚ
  pva : ℚ
  x : ℚ
  y : ℚ
  z : ℚ
  d : ℚ
  d2 : ℚ
  vd : ℚ
  vd2 : ℚ
  yv : ℚ
  ty : ℚ
  pxv : ℚ
  pyv : ℚ
  pvd : ℚ
  bd : ℚ
  d2pv : ℚ
  glinex : ℚ
  oglinex : ℚ
  glinez : ℚ
  gta : ℚ
  gpa : ℚ
  pL : Vec3
  pV : Vec3
  pR : Vec3
  pfL : Vec3
  tL : Vec3
  bL : Vec3
  bV : Vec3
  pB : ℚ
  jcount : ℚ
  gtime : ℚ
  airtime : ℚ
  djtime : ℚ
  dT : ℚ
  time : ℚ
  djT : ℚ
  poG : ℚ
  kickoff : ℚ
  shoot : ℚ
  flip : ℚ
  wavedash : ℚ
  brakes : ℚ
  tojump : ℚ
  offense : ℚ
  ljump : ℚ
  lljump : ℚ
  jumper : ℚ
  dodge : ℚ
  dja : ℚ
  djL : DjL
  fx : ℚ
  fy : ℚ
  fz : ℚ
  fd2 : ℚ
  jumpd : ℚ
  boostd : ℚ
  zspeed : ℚ
  throttle : ℚ
  steer : ℚ
  pitch : ℚ
  yaw : ℚ
  roll : ℚ
  boost : ℚ
  powerslide : ℚ
  jump : ℚ

/-- `to_jump` (Handling.py lines 143-164): sets the local-frame target
coordinates and jump-distance scratch fields, returns `1` on the jump
condition, and may set `s.jumper` on the fall-through path. -/
def to_jump (u : Util) (s : BotState) : BotState × ℚ :=
  let f := u.localv s.tL s.pfL s.pR
  let s : BotState := { s with fx := f.x, fy := f.y, fz := f.z }
  let s : BotState := { s with fd2 := u.d2xy s.fx s.fy }
  let s : BotState := { s with jumpd := min (s.dT * 300) (s.jcount * 220) }
  let s : BotState := { s with boostd := (1/2 : ℚ) * 1058 * (min s.dT (s.pB / 33)) ^ 2 }
  let s : BotState := { s with zspeed := s.z / (s.dT + 1/10000) }
  if ((pytrue s.offense ∧ (|s.glinex| < 650 ∨ u.Range180 (s.gta - s.gpa) 1 < 1/100)) ∨
      ((¬ pytrue s.offense ∨ |s.a| > 8/10) ∧ (|s.oglinex| > 999 ∨ s.glinez > 1200)) ∨
      pytrue s.kickoff) ∧
     (s.fd2 < 150 ∧ 70 < s.fz ∧ s.fz < s.jumpd + max (s.boostd - s.jumpd) 0 ∧
      s.jcount > 0) ∧
     (140 < s.zspeed ∧ s.zspeed < 400 + max (s.boostd - 300) 0 / (s.dT + 1/100)) then
    (s, 1)
  else if s.z > 140 ∧ pytrue s.tojump ∧
      (s.z < s.jcount * 250 + s.pB * 10 ∧ s.d2pv < 100 ∧ s.vd2 < 150) then
    ({ s with jumper := 1 }, 0)
  else (s, 0)

/-- `dodge_hit` (lines 121-132): on a close pre-dodge prediction in a
shooting/clearing situation, set `s.dodge` and point `s.djL` at the
predicted ball position expression.  The first line's `d2pv` is a local
variable, not the field `s.d2pv`. -/
def dodge_hit (u : Util) (s : BotState) : BotState :=
  let d2pv := u.d2v (v3sub (v3sub s.tL s.pL) (v3smul s.pV (s.dT + 1/10)))
  if d2pv < 99 ∧ |s.tL.z - s.pL.z| < 110 ∧ s.bd < 1299 then
    if (pytrue s.offense ∧ (|s.glinex| < 650 ∨ u.Range180 (s.gta - s.gpa) 1 < 1/100)) ∨
       ((¬ pytrue s.offense ∨ |s.a| > 8/10) ∧ |s.oglinex| > 1400) ∨
       pytrue s.kickoff then
      { s with dodge := 1, djL := DjL.bLbV }
    else s
  else s

/-- The unconditional opening statements of `controls` (Handling.py lines
6-16): the throttle/steer/pitch/yaw/roll/boost assignments and
`s.powerslide = s.jump = 0`.  After these, every one of the eight output
fields has been overwritten. -/
def controls_init (u : Util) (s : BotState) : BotState :=
  let throttle0 : ℚ :=
    u.curve1 ((s.y - (63/100 : ℚ) * s.brakes * s.pyv / ((1 - s.pyv / 2300) * 3 + 1)) / 999)
  let s : BotState := { s with throttle := throttle0 }
  let s : BotState := { s with steer := u.curve1 (u.Range180 (s.a - s.av / 55) 1) }
  let s : BotState := { s with pitch := u.regress (-s.i - s.iv / 17) }
  let s : BotState := { s with yaw := u.regress (u.Range180 (s.a - s.av / 12) 1) }
  let roll0 : ℚ :=
    u.regress (u.Range180 (-s.r + s.rv / 22) 1) * bq (|s.a| < 15/100)
  let s : BotState := { s with roll := roll0 }
  let boost0 : ℚ :=
    pyAnd (pyAnd (pyAnd (pyAnd (bq (s.throttle > 1/2)) (bq (|s.a| < 12/100)))
      (pyOr s.poG (bq (|s.i| < 2/10)))) (bq (|s.y| > 99))) (bq (s.pyv < 2260))
  let s : BotState := { s with boost := boost0 }
  { s with powerslide := 0, jump := 0 }

/-- The remainder of `controls` (Handling.py lines 18-118), from the general
powerslide block to the final `s.jump = s.ljump` statement.  Each
`let s : BotState := ...` is one statement of the source, in source order;
Python chained comparisons `a < b < c` are the conjunction of both
comparisons, and short-circuit evaluation of `s.shoot and to_jump(s)` calls
`to_jump` (with its side effects) only when `s.shoot` is truthy. -/
def controls_rest (u : Util) (s : BotState) : BotState :=
  -- general powerslide
  let s : BotState :=
    if s.throttle * s.pyv ≥ 0 ∧ s.av * s.steer ≥ 0 ∧ s.pxv * s.steer ≥ 0 ∧
       ((u.ang_dif s.a s.pva 1 < 15/100 ∧ 5/100 < |s.a| ∧ |s.a| < 95/100) ∨
        (s.pL.z < 99 ∧ 24/100 < u.ang_dif s.a (s.av / 9) 1 ∧
         u.ang_dif s.a (s.av / 9) 1 < 76/100) ∨
        (s.gtime < 5/100 ∧ u.ang_dif s.a s.pva 1 < 25/100 ∧ ¬ pytrue s.kickoff)) then
      { s with powerslide := 1 }
    else s
  -- turn 180°
  let s : BotState :=
    if s.d2 > 400 ∧ |s.a + s.av / (9/4 : ℚ)| > 45/100 then
      let s : BotState := if |s.a| > 98/100 then { s with steer := 1 } else s
      if s.d2 > 600 ∧ s.pyv < -90 then
        let s : BotState :=
          if |s.a| < 98/100 ∧ |s.av| > 1/2 ∧ u.ang_dif s.a s.pva 1 < 25/100 then
            { s with powerslide := 1 }
          else s
        { s with steer := -u.sign s.steer }
      else if s.d2 > 800 ∧ |s.a| < 95/100 ∧ s.pyv < 1000 then
        { s with throttle := 1 }
      else s
    else s
  -- three point turn
  let s : BotState :=
    if pytrue s.poG ∧ 20 < |s.x| ∧ |s.x| < 400 ∧ |s.y| < 200 ∧
       35/100 < |s.a| ∧ |s.a| < 65/100 ∧ |s.pyv| < 550 ∧ |s.yv| < 550 then
      { s with throttle := -u.sign s.throttle, steer := -u.sign s.steer }
    else s
  -- if s.shoot and to_jump(s): s.jumper = 1
  let st : BotState × ℚ := if pytrue s.shoot then to_jump u s else (s, 0)
  let s : BotState := st.1
  let s : BotState := if pytrue s.shoot ∧ pytrue st.2 then { s with jumper := 1 } else s
  -- jumping off walls
  let s : BotState :=
    if ((s.z > 1350 ∨ ((s.d < s.z * (3/2 : ℚ) ∨ s.vd < 400) ∧ s.pL.z < 500 ∧
          |s.a| < 15/100 ∧ s.bL.z < 500)) ∧ pytrue s.poG ∧ s.pL.z > 60 ∧
        (abs ((1/2 : ℚ) - |s.a|) > 1/4 ∨ s.d > 2500)) ∨
       (pytrue s.poG ∧ s.pL.z > 1900 ∧ s.d2pv < 120) then
      { s with jump := 1 }
    else s
  -- flip
  let s : BotState :=
    if pytrue s.flip ∧ s.d > 400 ∧ u.ang_dif s.a s.pva 1 < 6/100 ∧ s.pB < 80 ∧
       s.pvd < 2200 ∧ s.jcount > 0 ∧ (s.gtime > 5/100 ∨ ¬ pytrue s.poG) ∧
       ¬ pytrue s.jumper ∧ |s.i| < 2/10 ∧
       ((s.pyv > 1640 ∧ s.ty - s.yv / 4 > 3500) ∨
        (|s.a| > 75/100 ∧ |s.ty - s.yv / 6| > 850 ∧ s.pyv < -140) ∨
        (s.pyv > 1120 ∧ s.ty - s.yv / 4 > 3000 ∧ s.pB < 16) ∨
        (2000 > s.pyv ∧ s.pyv > 970 ∧ s.ty - s.pyv / 4 > 1650 ∧ s.pB < 6)) then
      { s with dodge := 1, djL := DjL.tL }
    else s
  -- jump for wavedash
  let s : BotState :=
    if s.d > 550 ∧ 950 < s.ty - s.yv / 2 ∧ u.ang_dif s.a s.pva 1 < 2/100 ∧
       |s.i| < 1/10 ∧ s.pL.z < 50 ∧ pytrue s.poG ∧ s.pB < 40 ∧
       1050 < s.pvd ∧ s.pvd < 2200 ∧ s.gtime > 1/10 ∧ pytrue s.wavedash then
      { s with jump := 1 }
    else s
  -- forward wavedash
  let s : BotState :=
    if s.jcount > 0 ∧ s.pL.z + s.pV.z / 20 < 32 ∧ |s.r| < 1/10 ∧
       |s.a| < 4/100 ∧ s.y > 400 ∧ 0 < |s.pR.x / u.U| ∧ |s.pR.x / u.U| < 12/100 ∧
       ¬ pytrue s.poG ∧ s.pV.z < -210 ∧ pytrue s.wavedash then
      { s with jump := 1, pitch := -1, yaw := 0, roll := 0 }
    else s
  -- if s.shoot: dodge_hit(s)
  let s : BotState := if pytrue s.shoot then dodge_hit u s else s
  -- handling long jumps
  let s : BotState :=
    if pytrue s.jumper ∧ s.jcount > 0 then
      let s : BotState :=
        if pytrue s.poG ∨ (pytrue s.ljump ∧ ¬ pytrue s.poG) then
          { s with jump := 1 }
        else s
      let s : BotState :=
        if (pytrue s.jump ∧ s.ljump ≠ s.lljump) ∨ ¬ pytrue s.ljump then
          { s with pitch := 0, yaw := 0, roll := 0 }
        else s
      if min (18/100 : ℚ) (s.dT + 5/100) < s.airtime ∧ s.fz > 100 then
        { s with jump := pyNot s.ljump }
      else s
    else s
  -- handling pre-dodge
  let s : BotState :=
    if pytrue s.dodge ∧ s.jcount > 0 then
      let s : BotState := { s with jump := pyOr s.poG (bq (s.z > 0)) }
      if 8/100 < s.airtime ∧ s.pL.z > 45 then
        let dja0 : ℚ :=
          match s.djL with
          | DjL.tL => u.dodge_ang s.tL s.pL s.pR
          | DjL.bLbV => u.dodge_ang (v3add s.bL (v3div s.bV 60)) s.pL s.pR
          | DjL.other => u.djaOther
        let s : BotState := { s with dja := dja0 }
        let yaw0 : ℚ := (|u.Range180 (s.dja + 1/2) 1 * 2| - 1) * (9/10 : ℚ)
        { s with jump := pyNot s.ljump, pitch := |s.dja| * 2 - 1, yaw := yaw0, roll := 0, djT := s.time }
      else s
    else s
  -- handling post-dodge
  let s : BotState :=
    if (5/100 < s.djtime ∧ s.djtime < 25/100) ∨
       (25/100 < s.djtime ∧ s.djtime < 65/100 ∧ |s.a| > 1/2) then
      { s with pitch := 0, yaw := 0, roll := 0 }
    else s
  if pytrue s.poG ∧ s.lljump ≠ s.ljump then { s with jump := s.ljump } else s

/-- `controls` (Handling.py lines 4-118), the per-tick control law: the
unconditional opening assignments followed by the conditional blocks. -/
def controls (u : Util) (s : BotState) : BotState :=
  controls_rest u (controls_init u s)

/-- The four per-tick outputs named by the spec: throttle, steer, jump,
boost. -/
def out4 (s : BotState) : ℚ × ℚ × ℚ × ℚ := (s.throttle, s.steer, s.jump, s.boost)

/-! ## Concrete example values (used by witness theorems) -/

/-- A manager state with one connected joystick (instance id 3, handle 7),
one registered hotkey (`"A"` mapped to callback 5), rebind mode off. -/
def exManager : HotkeyState where
  hotkeys := fun n => if n = "A" then some 5 else none
  joysticks := fun i => if i = 3 then some 7 else none
  rebind_mode := false
  rebind_result := none
  rebind_event := false
  keys_pressed := []
  dpad_pressed := []

/-- `exManager` after entering rebind mode. -/
def exManagerRebind : HotkeyState := { exManager with rebind_mode := true }

/-- A manager state with no joystick connected. -/
def exEmptyJoy : HotkeyState := { exManager with joysticks := fun _ => none }

/-- `exManager` with a callback registered under the d-pad name `"D-Up"`. -/
def exDUp : HotkeyState := register_hotkey exManager "D-Up" 9

/-- One joystick reading: button 0 held, hat once up and once centered. -/
def exReading : JoyReading where
  id := 7
  buttons := [1, 0]
  hats := [(0, 1), (0, 0)]

def exPhysics : Physics where
  location := ⟨1, 2, 3⟩
  rotation := ⟨0, 0, 0⟩
  velocity := ⟨4, 5, 6⟩
  angular_velocity := ⟨0, 0, 1⟩

def exCar : PlayerInfo where
  physics := exPhysics
  boost := 33
  jumped := true
  double_jumped := false

def exPacket : GameTickPacket where
  game_cars := [exCar]
  game_ball := ⟨exPhysics⟩

/-- A `PlaylistEditMode` that has received one packet. -/
def exMode : PlaylistEditMode := ⟨0, 1, some exPacket⟩

/-- A freshly constructed `PlaylistEditMode` (no packet yet). -/
def exModeEmpty : PlaylistEditMode := ⟨0, 1, none⟩

/-! ## Theorems -/

/-- Helper: association-list lookup on a cons cell, with propositional
equality in place of `==`. -/
theorem lookup_cons_eq_if {α β : Type} [DecidableEq α] [BEq α] [LawfulBEq α] (a k : α) (v : β)
    (l : List (α × β)) :
    List.lookup a ((k, v) :: l) = if a = k then some v else List.lookup a l := by
  by_cases h : a = k
  · subst h
    simp [List.lookup]
  · have hb : (a == k) = false := beq_eq_false_iff_ne.mpr h
    simp [List.lookup, h, hb]

/-- C1: in rebind mode, `_handle_button_down` stores the pressed button's
name in `rebind_result`, sets `rebind_event` (releasing a blocked
`wait_for_rebind`), and invokes no registered hotkey callback. -/
theorem rebind_captures_next_button (s : HotkeyState) (iid btn j : Nat)
    (hm : s.rebind_mode = true) (hj : s.joysticks iid = some j) :
    handle_button_down s iid btn =
      .ok ({ s with rebind_result := some (get_button_name btn j), rebind_event := true }, none) := by
  simp [handle_button_down, hj, hm]

/-- Witness for C1 at a concrete state: button 0 of joystick 7 is captured
as `"A"` while rebind mode is on. -/
theorem rebind_captures_next_button_witness :
    handle_button_down exManagerRebind 3 0 =
      .ok ({ exManagerRebind with rebind_result := some (get_button_name 0 7), rebind_event := true }, none) ∧
    get_button_name 0 7 = "A" :=
  ⟨rebind_captures_next_button exManagerRebind 3 0 7 rfl rfl, rfl⟩

/-- C2: `wait_for_rebind` returns the captured button (or hat) name when a
press is detected during the wait, and `None` when the wait times out with
no press detected. -/
theorem wait_for_rebind_blocks_and_returns (s : HotkeyState) (iid btn j : Nat)
    (hj : s.joysticks iid = some j) :
    (wait_for_rebind s (pollButtonDown iid btn)).2 = some (get_button_name btn j) ∧
    (∀ (v : Int × Int) (name : String), get_hat_name v = some name →
       (wait_for_rebind s (pollHatMotion v)).2 = some name) ∧
    (∀ during : HotkeyState → HotkeyState,
       (during (rebind_begin s)).rebind_event = false →
       (wait_for_rebind s during).2 = none) := by
  refine ⟨?_, ?_, ?_⟩
  · simp [wait_for_rebind, pollButtonDown, handle_button_down, rebind_begin,
          rebind_finish, hj]
  · intro v name hv
    simp [wait_for_rebind, pollHatMotion, handle_hat_motion, rebind_begin,
          rebind_finish, hv]
  · intro during hd
    simp [wait_for_rebind, rebind_finish, hd]

/-- Witness for C2: the press case returns `"A"`, and an idle wait (no poll
activity) returns `none`. -/
theorem wait_for_rebind_blocks_and_returns_witness :
    (wait_for_rebind exManager (pollButtonDown 3 0)).2 = some (get_button_name 0 7) ∧
    (wait_for_rebind exManager (pollHatMotion (0, 1))).2 = some ("D-Up") ∧
    (wait_for_rebind exManager id).2 = none :=
  ⟨(wait_for_rebind_blocks_and_returns exManager 3 0 7 rfl).1,
   (wait_for_rebind_blocks_and_returns exManager 3 0 7 rfl).2.1 (0, 1) "D-Up" rfl,
   (wait_for_rebind_blocks_and_returns exManager 3 0 7 rfl).2.2 id rfl⟩

/-- C10: on every exit path of the rebind operation — the `wait_for_rebind`
return (with a name, after timeout, or after being released) and
`cancel_rebind` — `rebind_mode` is `False` and `rebind_result` is `None`. -/
theorem rebind_state_reset_on_exit (s : HotkeyState) (b : Bool)
    (during : HotkeyState → HotkeyState) :
    (rebind_finish s b).1.rebind_mode = false ∧
    (rebind_finish s b).1.rebind_result = none ∧
    (wait_for_rebind s during).1.rebind_mode = false ∧
    (wait_for_rebind s during).1.rebind_result = none ∧
    (cancel_rebind s).rebind_mode = false ∧
    (cancel_rebind s).rebind_result = none :=
  ⟨rfl, rfl, rfl, rfl, rfl, rfl⟩

/-- C4: with no stored packet, `get_current_game_state` raises
(`AttributeError` on `None`); with an unknown joystick instance id,
`_handle_button_down` raises (`KeyError`); neither script catches these. -/
theorem failures_surface_as_errors :
    (∀ m : PlaylistEditMode, m.current_packet = none →
       get_current_game_state m = .error ("AttributeError")) ∧
    (∀ (s : HotkeyState) (iid btn : Nat), s.joysticks iid = none →
       handle_button_down s iid btn = .error ("KeyError")) := by
  constructor
  · intro m hm
    simp [get_current_game_state, hm]
  · intro s iid btn hj
    simp [handle_button_down, hj]

/-- Witness for C4 at concrete states: a fresh mode and a manager with no
joysticks. -/
theorem failures_surface_as_errors_witness :
    get_current_game_state exModeEmpty = .error ("AttributeError") ∧
    handle_button_down exEmptyJoy 3 0 = .error ("KeyError") :=
  ⟨failures_surface_as_errors.1 exModeEmpty rfl,
   failures_surface_as_errors.2 exEmptyJoy 3 0 rfl⟩

/-- C7: `update` stores the packet and changes nothing else; `initialize`
and `cleanup` change no state at all. -/
theorem playlist_edit_mode_thin_holder (m : PlaylistEditMode) (p : GameTickPacket) :
    (m.update p).current_packet = some p ∧
    (m.update p).game_state = m.game_state ∧
    (m.update p).game_interface = m.game_interface ∧
    m.init = m ∧
    m.cleanup = m :=
  ⟨rfl, rfl, rfl, rfl, rfl⟩

/-- C8: `get_button_name` is total — `BUTTON_NAMES[i]` for `i` in `0..11`,
the fallback string otherwise — and its result never depends on the
`joystick` argument. -/
theorem get_button_name_total_and_independent :
    (∀ i j : Nat,
       (i < 12 → some (get_button_name i j) = BUTTON_NAMES.lookup i) ∧
       (12 ≤ i → get_button_name i j = "Button " ++ toString i)) ∧
    (∀ i j1 j2 : Nat, get_button_name i j1 = get_button_name i j2) := by
  constructor
  · intro i j
    constructor
    · intro h
      interval_cases i <;> rfl
    · intro h
      obtain ⟨n, rfl⟩ : ∃ n, i = n + 12 := ⟨i - 12, by omega⟩
      rfl
  · intro i j1 j2
    rfl

/-- Witness for C8: index 5 maps through `BUTTON_NAMES` to `"RB"`, index 20
takes the fallback. -/
theorem get_button_name_total_and_independent_witness :
    some (get_button_name 5 0) = BUTTON_NAMES.lookup 5 ∧
    get_button_name 5 0 = "RB" ∧
    get_button_name 20 0 = "Button " ++ toString 20 :=
  ⟨(get_button_name_total_and_independent.1 5 0).1 (by decide), rfl,
   (get_button_name_total_and_independent.1 5 0).2
     |> fun _ => (get_button_name_total_and_independent.1 20 0).2 (by decide)⟩

/-- Helper: `get_hat_name` as a chain of propositional tests. -/
theorem get_hat_name_eq (p : Int × Int) :
    get_hat_name p =
      if p = ((0 : Int), (1 : Int)) then some ("D-Up")
      else if p = (0, -1) then some ("D-Down")
      else if p = (-1, 0) then some ("D-Left")
      else if p = (1, 0) then some ("D-Right")
      else if p = (-1, 1) then some ("D-Up-Left")
      else if p = (1, 1) then some ("D-Up-Right")
      else if p = (-1, -1) then some ("D-Down-Left")
      else if p = (1, -1) then some ("D-Down-Right")
      else none := by
  unfold get_hat_name HAT_NAMES
  rw [lookup_cons_eq_if, lookup_cons_eq_if, lookup_cons_eq_if, lookup_cons_eq_if,
      lookup_cons_eq_if, lookup_cons_eq_if, lookup_cons_eq_if, lookup_cons_eq_if,
      lookup_cons_eq_if]
  split_ifs <;> simp_all

/-- C9: `get_hat_name` yields a name for exactly the eight non-centered
positions listed in `HAT_NAMES`, and both `_update_input_state` and
`_handle_hat_motion` ignore the centered position `(0, 0)` (and every
unlisted position): nothing centered is ever recorded or acted on. -/
theorem hat_naming_filters_centered :
    (∀ p : Int × Int,
       (get_hat_name p).isSome ↔
         p ∈ ([(0, 1), (0, -1), (-1, 0), (1, 0), (-1, 1), (1, 1), (-1, -1), (1, -1)] :
              List (Int × Int))) ∧
    (∀ (s : HotkeyState) (readings : List JoyReading) (name : String),
       name ∈ (update_input_state s readings).dpad_pressed →
       ∃ j ∈ readings, ∃ h ∈ j.hats, h ≠ (0, 0) ∧ get_hat_name h = some name) ∧
    (∀ s : HotkeyState, handle_hat_motion s (0, 0) = (s, none)) := by
  refine ⟨?_, ?_, ?_⟩
  · intro p
    rw [get_hat_name_eq]
    split_ifs <;> simp_all
  · intro s readings name hmem
    simp only [update_input_state, List.mem_flatten, List.mem_map] at hmem
    obtain ⟨l, ⟨j, hj, rfl⟩, hname⟩ := hmem
    simp only [dpad_of, List.mem_filterMap] at hname
    obtain ⟨h, hh, hget⟩ := hname
    refine ⟨j, hj, h, hh, ?_, hget⟩
    rintro rfl
    rw [show get_hat_name (0, 0) = none from rfl] at hget
    exact Option.noConfusion hget
  · intro s
    rfl

/-- Witness for C9: a reading with the hat up and then centered records
exactly `"D-Up"`; the recorded name traces back to the non-centered hat. -/
theorem hat_naming_filters_centered_witness :
    (update_input_state exManager [exReading]).dpad_pressed = ["D-Up"] ∧
    (∃ j ∈ [exReading], ∃ h ∈ j.hats, h ≠ ((0 : Int), (0 : Int)) ∧
       get_hat_name h = some ("D-Up")) ∧
    handle_hat_motion exManager (0, 0) = (exManager, none) :=
  ⟨rfl,
   hat_naming_filters_centered.2.1 exManager [exReading] "D-Up"
     (by rw [show (update_input_state exManager [exReading]).dpad_pressed = ["D-Up"] from rfl]; exact List.mem_singleton.mpr rfl),
   hat_naming_filters_centered.2.2 exManager⟩

/-- Helper: looking up index `n + k` in the `car_states` association list
built from offset `n` projects car `k`. -/
theorem lookup_build_car_states (l : List PlayerInfo) :
    ∀ n k : Nat, k < l.length →
      (build_car_states n l).lookup (n + k) =
        (l.get? k).map
          (fun c => (⟨c.physics, c.boost, c.jumped, c.double_jumped⟩ : CarState)) := by
  induction l with
  | nil =>
    intro n k hk
    simp at hk
  | cons c rest ih =>
    intro n k hk
    cases k with
    | zero =>
      rw [build_car_states, lookup_cons_eq_if]
      simp
    | succ k =>
      rw [build_car_states, lookup_cons_eq_if]
      rw [if_neg (by omega)]
      rw [show n + (k + 1) = (n + 1) + k by omega]
      rw [ih (n + 1) k (by simpa using hk)]
      simp

/-- C6: `get_current_game_state` copies without transformation — for each
index `i`, car `i`'s physics, boost (as `boost_amount`), `jumped` and
`double_jumped` are carried verbatim into the `CarState`, and the ball's
physics is carried verbatim into the `BallState`. -/
theorem get_current_game_state_copies (m : PlaylistEditMode)
    (p : GameTickPacket) (i : Nat)
    (hp : m.current_packet = some p) (hi : i < p.game_cars.length) :
    ∃ gs : GameState, get_current_game_state m = .ok gs ∧
      gs.ball = ⟨p.game_ball.physics⟩ ∧
      gs.cars.lookup i =
        (p.game_cars.get? i).map
          (fun c => (⟨c.physics, c.boost, c.jumped, c.double_jumped⟩ : CarState)) := by
  refine ⟨⟨⟨p.game_ball.physics⟩, build_car_states 0 p.game_cars⟩, ?_, rfl, ?_⟩
  · simp [get_current_game_state, hp]
  · have h := lookup_build_car_states p.game_cars 0 i hi
    simpa using h

/-- Witness for C6 at a one-car packet. -/
theorem get_current_game_state_copies_witness :
    ∃ gs : GameState, get_current_game_state exMode = .ok gs ∧
      gs.ball = ⟨exPacket.game_ball.physics⟩ ∧
      gs.cars.lookup 0 =
        (exPacket.game_cars.get? 0).map
          (fun c => (⟨c.physics, c.boost, c.jumped, c.double_jumped⟩ : CarState)) :=
  get_current_game_state_copies exMode exPacket 0 rfl (by decide)

/-- C3 counterexample: at a concrete state with rebind mode off and a
callback registered under the hat name `"D-Up"`, delivering the hat event
`(0, 1)` invokes no callback — the claim that hat/d-pad events with a
registered callback are dispatched fails here. -/
theorem hat_events_not_dispatched_counterexample :
    exDUp.rebind_mode = false ∧
    exDUp.hotkeys "D-Up" = some 9 ∧
    get_hat_name (0, 1) = some ("D-Up") ∧
    (handle_hat_motion exDUp (0, 1)).2 = none ∧
    (handle_hat_motion exDUp (0, 1)).2 ≠ some 9 := by
  refine ⟨rfl, rfl, rfl, rfl, ?_⟩
  rw [show (handle_hat_motion exDUp (0, 1)).2 = none from rfl]
  exact fun h => Option.noConfusion h

/-- C3 (amended): only button-down events dispatch — with rebind mode off, a
button whose name has a registered callback causes `_handle_button_down` to
invoke that callback, while `_handle_hat_motion` never invokes a callback
for any hat event. -/
theorem hotkey_dispatch_buttons_only :
    (∀ (s : HotkeyState) (hotkey : String) (cb iid btn j : Nat),
       s.rebind_mode = false → s.joysticks iid = some j →
       get_button_name btn j = hotkey →
       handle_button_down (register_hotkey s hotkey cb) iid btn =
         .ok (register_hotkey s hotkey cb, some cb)) ∧
    (∀ (s : HotkeyState) (v : Int × Int), (handle_hat_motion s v).2 = none) := by
  constructor
  · intro s hotkey cb iid btn j hm hj hname
    subst hname
    simp [handle_button_down, register_hotkey, hj, hm]
  · intro s v
    cases hg : get_hat_name v with
    | none => simp [handle_hat_motion, hg]
    | some nm =>
      simp only [handle_hat_motion, hg]
      split <;> rfl

/-- Witness for C3 (amended): registering callback 11 under `"X"` makes
button 2 dispatch it; the hat event `(0, 1)` dispatches nothing. -/
theorem hotkey_dispatch_buttons_only_witness :
    handle_button_down (register_hotkey exManager "X" 11) 3 2 =
      .ok (register_hotkey exManager "X" 11, some 11) ∧
    (handle_hat_motion exManager (0, 1)).2 = none :=
  ⟨hotkey_dispatch_buttons_only.1 exManager "X" 11 3 2 7 rfl rfl rfl,
   hotkey_dispatch_buttons_only.2 exManager (0, 1)⟩

/-- C5: the control law assigns throttle, steer, jump and boost from the
input fields of `s` alone — overwriting the eight output fields of the
incoming state with arbitrary junk leaves all four computed outputs
unchanged, for every choice of the `Util` helper functions. -/
theorem controls_outputs_from_inputs (u : Util) (s : BotState)
    (t0 st0 p0 y0 r0 b0 ps0 j0 : ℚ) :
    out4 (controls u { s with throttle := t0, steer := st0, pitch := p0, yaw := y0, roll := r0, boost := b0, powerslide := ps0, jump := j0 }) =
      out4 (controls u s) := by
  have h : controls_init u { s with throttle := t0, steer := st0, pitch := p0, yaw := y0, roll := r0, boost := b0, powerslide := ps0, jump := j0 } =
      controls_init u s := rfl
  show out4 (controls_rest u (controls_init u _)) = out4 (controls_rest u (controls_init u s))
  rw [h]

end RLDojo
